import Mathlib

/-!
Verification development for the bug-analysis triage core
(src/bug_analysis_agent: scanner.py, analyzer.py, config.py,
cloudwatch.py timestamp parsing).

Modelling conventions:
* Python strings are modelled as Lean String / List Char; all inputs are
  ASCII, so ASCII case folding models str.lower / re.IGNORECASE.
* Python datetime instants are modelled as Int seconds since the epoch;
  microsecond fractions are parsed syntactically where the source parses
  them but carried at second granularity (no claim below depends on
  sub-second values), and datetime.fromtimestamp is modelled with a UTC
  local clock.
* Regular expressions are modelled by a small executable matching engine
  over List Char; each compiled pattern of the source is transcribed into
  the engine syntax next to its Python text.
* Environment-dependent configuration values are modelled by the
  documented os.getenv defaults in config.py.
-/

namespace BugAgent

/-- ASCII lowercase conversion, modelling str.lower on the ASCII data
handled by this system. -/
def pyLower (c : Char) : Char :=
  if 'A' ≤ c ∧ c ≤ 'Z' then Char.ofNat (c.toNat + 32) else c

/-- Word character test, modelling the regex class backslash-w on ASCII. -/
def isWordChar (c : Char) : Bool :=
  ('a' ≤ c && c ≤ 'z') || ('A' ≤ c && c ≤ 'Z') || ('0' ≤ c && c ≤ '9') || c = '_'

/-- Decimal digit test, modelling the regex class backslash-d on ASCII. -/
def isDigitChar (c : Char) : Bool :=
  '0' ≤ c && c ≤ '9'

/-- Whitespace test, modelling the regex class backslash-s and str.split
whitespace on ASCII. -/
def isSpaceChar (c : Char) : Bool :=
  c = ' ' || c = '\t' || c = '\n' || c = '\x0d' || c = '\x0c' || c = '\x0b'

/-- Python index normalization for slicing: a negative index counts from
the end of the list (length plus index), and the result is clamped into
the range from zero to the length. -/
def pyIndex (len : Nat) (x : Int) : Nat :=
  if x < 0 then (max 0 ((len : Int) + x)).toNat else (min (len : Int) x).toNat

/-- Python list slice l[a:b] with unit step: both bounds are normalized
by pyIndex, so a negative stop wraps around and counts from the end of
the list (the scanner pre-clamps its bounds with max and min, but a
sufficiently negative request-id window still passes a negative stop,
which Python reads as length plus stop); the slice is empty when the
normalized stop does not exceed the normalized start. -/
def pySlice (l : List α) (a b : Int) : List α :=
  (l.drop (pyIndex l.length a)).take (pyIndex l.length b - pyIndex l.length a)

/-- Substring containment test, modelling the Python expression
sub in s (case-sensitive). -/
def containsStr (sub s : List Char) : Bool :=
  match s with
  | [] => sub.isEmpty
  | _ :: tail => s.take sub.length = sub || containsStr sub tail

/-- Strip leading whitespace, half of str.strip. -/
def dropLeadingWs (s : List Char) : List Char :=
  match s with
  | [] => []
  | c :: cs => if isSpaceChar c then dropLeadingWs cs else c :: cs

/-- Python str.strip: remove leading and trailing whitespace. -/
def pyStrip (s : List Char) : List Char :=
  (dropLeadingWs (dropLeadingWs s.reverse).reverse)

/-- Split on runs of whitespace discarding empty fields, modelling
str.split with no argument. -/
def splitWsAux : List Char → List Char → List (List Char)
  | [], acc => if acc.isEmpty then [] else [acc.reverse]
  | c :: cs, acc =>
    if isSpaceChar c then
      if acc.isEmpty then splitWsAux cs [] else acc.reverse :: splitWsAux cs []
    else splitWsAux cs (c :: acc)

/-- Entry point of the whitespace split. -/
def splitWs (s : List Char) : List (List Char) := splitWsAux s []

/-- Join with single spaces, modelling the join in
the whitespace normalization step of the scanner. -/
def joinSpace : List (List Char) → List Char
  | [] => []
  | [w] => w
  | w :: ws => w ++ ' ' :: joinSpace ws

/-- Split a text into lines at every newline, modelling
str.split applied with a newline separator (an empty text gives one
empty line, exactly as in Python). -/
def splitLinesAux : List Char → List Char → List (List Char)
  | [], acc => [acc.reverse]
  | c :: cs, acc =>
    if c = '\n' then acc.reverse :: splitLinesAux cs [] else splitLinesAux cs (c :: acc)

/-- Line splitting entry point. -/
def splitLines (s : List Char) : List (List Char) := splitLinesAux s []

/-! ## A small executable regex engine

The engine works on a pair of a previous-character context (for word
boundaries; none means start of string) and the remaining input. A match
step returns the list of possible successor states, most preferred first,
so that the head of the list corresponds to the greedy leftmost semantics
of the Python re module for the patterns transcribed below. -/

/-- Syntax of the regular expressions used by the source. -/
inductive RE : Type where
  | eps : RE
  | tok (p : Char → Bool) : RE
  | seq (a b : RE) : RE
  | alt (a b : RE) : RE
  | star (a : RE) : RE
  | wordB : RE
  | bol : RE

/-- Word-character test on the optional previous-character context. -/
def isWordOpt : Option Char → Bool
  | none => false
  | some c => isWordChar c

/-- Word boundary condition between the previous character and the head
of the remaining input. -/
def atBoundary (prev : Option Char) (rest : List Char) : Bool :=
  isWordOpt prev != isWordOpt rest.head?

/-- Iterate a step function for a starred subexpression: longer
consumptions are listed first (greedy), and an iteration that consumes
nothing is not repeated, so the recursion is bounded by the input length. -/
def starSteps (m : Option Char → List Char → List (Option Char × List Char)) :
    Nat → Option Char → List Char → List (Option Char × List Char)
  | 0, prev, s => [(prev, s)]
  | fuel + 1, prev, s =>
    (((m prev s).filter (fun st => st.2.length < s.length)).flatMap
      (fun st => starSteps m fuel st.1 st.2)) ++ [(prev, s)]

/-- All ways a regular expression can consume a prefix of the remaining
input, as successor states, most preferred first. -/
def reMatch : RE → Option Char → List Char → List (Option Char × List Char)
  | .eps, prev, s => [(prev, s)]
  | .tok p, _, s =>
    match s with
    | [] => []
    | c :: cs => if p c then [(some c, cs)] else []
  | .seq a b, prev, s =>
    (reMatch a prev s).flatMap (fun st => reMatch b st.1 st.2)
  | .alt a b, prev, s => reMatch a prev s ++ reMatch b prev s
  | .star a, prev, s => starSteps (reMatch a) s.length prev s
  | .wordB, prev, s => if atBoundary prev s then [(prev, s)] else []
  | .bol, prev, s => if prev.isNone then [(prev, s)] else []

/-- Unanchored search from a given context: does the pattern match
starting at some position of the remaining input. -/
def reSearchFrom (re : RE) : Option Char → List Char → Bool
  | prev, s =>
    !(reMatch re prev s).isEmpty ||
      match s with
      | [] => false
      | c :: cs => reSearchFrom re (some c) cs

/-- Unanchored search over a whole string, modelling the Boolean use of
re.search in the source. -/
def reSearch (re : RE) (s : List Char) : Bool := reSearchFrom re none s

/-- Leftmost match: returns (text before the match, matched text, text
after the match) for the first position where the pattern matches, taking
the most preferred (greedy) end at that position. -/
def reFindFrom (re : RE) : Option Char → List Char → Option (List Char × List Char × List Char)
  | prev, s =>
    match (reMatch re prev s).head? with
    | some st => some ([], s.take (s.length - st.2.length), st.2)
    | none =>
      match s with
      | [] => none
      | c :: cs =>
        (reFindFrom re (some c) cs).map (fun r => (c :: r.1, r.2.1, r.2.2))

/-- Leftmost match over a whole string. -/
def reFind (re : RE) (s : List Char) : Option (List Char × List Char × List Char) :=
  reFindFrom re none s

/-- Last character of a list, as an optional value. -/
def lastChar (s : List Char) : Option Char := s.reverse.head?

/-- All non-overlapping leftmost matches, in order, modelling
re.findall for patterns that never match the empty string; the fuel is
bounded by the input length plus one. -/
def reFindAllAux (re : RE) : Nat → Option Char → List Char → List (List Char)
  | 0, _, _ => []
  | fuel + 1, prev, s =>
    match reFindFrom re prev s with
    | none => []
    | some (pre, m, rest) =>
      m :: reFindAllAux re fuel (match lastChar (pre ++ m) with
        | some c => some c
        | none => prev) rest

/-- The findall entry point. -/
def reFindAll (re : RE) (s : List Char) : List (List Char) :=
  reFindAllAux re (s.length + 1) none s

/-- Replace every non-overlapping leftmost match by the image of the
matched text, modelling re.sub for patterns that never match the empty
string. -/
def reSubAux (re : RE) (f : List Char → List Char) :
    Nat → Option Char → List Char → List Char
  | 0, _, s => s
  | fuel + 1, prev, s =>
    match reFindFrom re prev s with
    | none => s
    | some (pre, m, rest) =>
      pre ++ f m ++ reSubAux re f fuel (match lastChar (pre ++ m) with
        | some c => some c
        | none => prev) rest

/-- The substitution entry point. -/
def reSub (re : RE) (f : List Char → List Char) (s : List Char) : List Char :=
  reSubAux re f (s.length + 1) none s

/-! Smart constructors used to transcribe the compiled patterns. -/

/-- Case-insensitive single character. -/
def ciChar (c : Char) : RE := .tok (fun d => pyLower d = pyLower c)

/-- Case-sensitive single character. -/
def csChar (c : Char) : RE := .tok (fun d => d = c)

/-- Concatenation of a list of expressions. -/
def reCat (l : List RE) : RE := l.foldr RE.seq .eps

/-- Case-insensitive literal string. -/
def ciLit (s : String) : RE := reCat (s.data.map ciChar)

/-- Case-sensitive literal string. -/
def csLit (s : String) : RE := reCat (s.data.map csChar)

/-- Greedy option: prefer the present branch. -/
def reOpt (r : RE) : RE := .alt r .eps

/-- First-preferred alternation over a list. -/
def reAlts : List RE → RE
  | [] => .eps
  | [r] => r
  | r :: rs => .alt r (reAlts rs)

/-- A digit token. -/
def reDigit : RE := .tok isDigitChar

/-- Exactly n digits. -/
def reDigits (n : Nat) : RE := reCat (List.replicate n reDigit)

/-- Any character except newline, the regex dot. -/
def reDot : RE := .tok (fun c => c ≠ '\n')

/-- Greedy dot-star. -/
def reDotStar : RE := .star reDot

/-- A whitespace token. -/
def reSpace : RE := .tok isSpaceChar

end BugAgent

namespace BugAgent

/-- Plus quantifier: one or more, greedy. -/
def rePlus (r : RE) : RE := .seq r (.star r)

/-- Exactly three extra optional digits, used for the 10-to-13 digit
epoch pattern. -/
def reDigitRange (lo extra : Nat) : RE :=
  reCat (List.replicate lo reDigit ++ List.replicate extra (reOpt reDigit))

/-- Case-insensitive literal surrounded by word boundaries, the common
shape of the compiled patterns. -/
def wbLit (s : String) : RE := reCat [.wordB, ciLit s, .wordB]

/-- The single-quote character, written by code to avoid a quote literal. -/
def squote : Char := Char.ofNat 39

/-- Character class of the colon-or-whitespace tail used by the generic
error and exception patterns. -/
def colonOrSpace : RE := .tok (fun c => c = ':' || isSpaceChar c)

/-- The ordered error pattern table of LogScanner, transcribed pattern by
pattern from the error_patterns list (all compiled with re.IGNORECASE). -/
def errorPatternList : List (RE × String) := [
  -- Log levels
  (ciLit "[E]", "LOG_LEVEL_ERROR"),
  (ciLit "[ERROR]", "LOG_LEVEL_ERROR"),
  (ciLit "[ERR]", "LOG_LEVEL_ERROR"),
  (ciLit "[FATAL]", "LOG_LEVEL_FATAL"),
  (ciLit "[CRITICAL]", "LOG_LEVEL_CRITICAL"),
  (reCat [ciLit "[WARN", reOpt (ciLit "ING"), ciLit "]"], "LOG_LEVEL_WARNING"),
  -- Programming errors
  (wbLit "AssertionError", "ASSERTION_ERROR"),
  (wbLit "RuntimeError", "RUNTIME_ERROR"),
  (wbLit "RangeError", "RANGE_ERROR"),
  (wbLit "TypeError", "TYPE_ERROR"),
  (wbLit "ReferenceError", "REFERENCE_ERROR"),
  (wbLit "SyntaxError", "SYNTAX_ERROR"),
  (wbLit "NameError", "NAME_ERROR"),
  (wbLit "ValueError", "VALUE_ERROR"),
  (wbLit "KeyError", "KEY_ERROR"),
  (wbLit "IndexError", "INDEX_ERROR"),
  (wbLit "ImportError", "IMPORT_ERROR"),
  (wbLit "ModuleNotFoundError", "MODULE_NOT_FOUND"),
  -- Exception signatures
  (reCat [.wordB, ciLit "Exception", .wordB, colonOrSpace], "GENERIC_EXCEPTION"),
  (wbLit "Unhandled exception", "UNHANDLED_EXCEPTION"),
  (wbLit "Uncaught exception", "UNCAUGHT_EXCEPTION"),
  (wbLit "Caught exception", "CAUGHT_EXCEPTION"),
  (reCat [.wordB, ciLit "Error", .wordB, colonOrSpace], "GENERIC_ERROR"),
  (reCat [.bol, ciLit "Exception", .wordB], "GENERIC_EXCEPTION"),
  (reCat [.bol, ciLit "Error", .wordB], "GENERIC_ERROR"),
  -- System failures and crashes
  (wbLit "FATAL", "FATAL"),
  (wbLit "CRITICAL", "CRITICAL"),
  (wbLit "SEVERE", "SEVERE"),
  (wbLit "PANIC", "PANIC"),
  (reCat [.wordB, ciLit "crash", reOpt (ciLit "ed"), .wordB], "CRASH"),
  (wbLit "segmentation fault", "SEGFAULT"),
  (wbLit "core dump", "CORE_DUMP"),
  (wbLit "kernel panic", "KERNEL_PANIC"),
  -- Network and API failures
  (wbLit "timeout", "TIMEOUT"),
  (reCat [.wordB, ciLit "connection ",
    reAlts [ciLit "reset", ciLit "refused", ciLit "timed out", ciLit "closed"], .wordB],
    "CONNECTION_ERROR"),
  (reCat [.wordB, ciLit "connect", .star (.tok isWordChar), ciLit " failed", .wordB],
    "CONNECTION_FAILURE"),
  (wbLit "request failed", "REQUEST_FAILURE"),
  (reCat [.wordB, ciLit "HTTP ", .tok (fun c => c = '4' || c = '5'), reDigit, reDigit, .wordB],
    "HTTP_ERROR"),
  (wbLit "503 Service Unavailable", "SERVICE_UNAVAILABLE"),
  (wbLit "504 Gateway Timeout", "GATEWAY_TIMEOUT"),
  (wbLit "network error", "NETWORK_ERROR"),
  (reCat [.wordB, ciLit "DNS ", reAlts [ciLit "lookup", ciLit "resolution"],
    ciLit " failed", .wordB], "DNS_FAILURE"),
  -- Access and permissions
  (wbLit "permission denied", "PERMISSION_DENIED"),
  (wbLit "access denied", "ACCESS_DENIED"),
  (wbLit "not authorized", "UNAUTHORIZED"),
  (wbLit "unauthorized", "UNAUTHORIZED"),
  -- File system and IO
  (wbLit "file not found", "FILE_NOT_FOUND"),
  (wbLit "no such file or directory", "FILE_NOT_FOUND"),
  (wbLit "read-only file system", "READ_ONLY_FS"),
  (wbLit "disk full", "DISK_FULL"),
  (wbLit "I/O error", "IO_ERROR"),
  -- Database, cache and storage
  (wbLit "SQLSTATE", "SQL_ERROR"),
  (wbLit "database error", "DB_ERROR"),
  (wbLit "query failed", "DB_QUERY_FAILURE"),
  (wbLit "connection pool exhausted", "DB_CONNECTION_EXHAUSTED"),
  (reCat [.wordB, ciLit "redis", .wordB, reDotStar, .wordB,
    .alt (ciLit "error") (ciLit "fail"), .wordB], "REDIS_ERROR"),
  -- Authentication and session
  (wbLit "authentication failed", "AUTH_FAILURE"),
  (wbLit "session expired", "SESSION_EXPIRED"),
  (wbLit "token expired", "TOKEN_EXPIRED"),
  -- Common failure phrases
  (wbLit "failed to", "GENERIC_FAILURE"),
  (wbLit "cannot", "GENERIC_FAILURE"),
  (wbLit "unable to", "GENERIC_FAILURE"),
  (wbLit "invalid", "INVALID_INPUT"),
  (wbLit "unexpected", "UNEXPECTED"),
  (wbLit "mismatch", "MISMATCH"),
  (wbLit "null", "NULL_ERROR"),
  (wbLit "undefined", "UNDEFINED"),
  -- Miscellaneous critical indicators
  (reCat [.wordB, ciLit "abort", reOpt (ciLit "ed"), .wordB], "ABORT"),
  (wbLit "stack trace", "STACK_TRACE"),
  (wbLit "traceback", "TRACEBACK"),
  (wbLit "bug", "BUG")]

/-- The informational markers whose plain (case-sensitive) presence in a
line excludes it from error detection. -/
def infoMarkers : List (List Char) :=
  ["[I]", "[INFO]", "[D]", "[DEBUG]", "[TRACE]"].map String.data

/-- The exclusion patterns that are searched on the lowercased line. -/
def excludePatternList : List RE := [
  csLit "receivedatawhenstatuserror",
  reCat [csLit "error", reDotStar, csChar ':', reDotStar, csLit "true"],
  reCat [csLit "error", reDotStar, csChar '=', reDotStar, csLit "true"],
  csLit "errorcallback",
  reCat [csLit "error_code", reDotStar, csChar '=', reDotStar, csChar '0'],
  csLit "no error",
  csLit "0 errors",
  csLit "error handling",
  csLit "error recovery"]

/-- The exclusion check of the scanner, combining marker containment on
the raw line with pattern search on the lowercased line. -/
def shouldExcludeLine (line : List Char) : Bool :=
  infoMarkers.any (fun m => containsStr m line) ||
  excludePatternList.any (fun re => reSearch re (line.map pyLower))

/-- First matching classification rule for a line, if any; the scan stops
at the first pattern that hits, so only one category per line. -/
def firstPatternType (line : List Char) : Option String :=
  (errorPatternList.find? (fun pr => reSearch pr.1 line)).map (fun pr => pr.2)

/-- Characters allowed in an extracted request identifier. -/
def isIdChar (c : Char) : Bool :=
  ('a' ≤ c && c ≤ 'z') || ('A' ≤ c && c ≤ 'Z') || ('0' ≤ c && c ≤ '9') || c = '-' || c = '_'

/-- Separator class between the request-id key and its value. -/
def ridSep : RE := .tok (fun c => c = ':' || c = '=' || isSpaceChar c)

/-- Quote class around the request-id value. -/
def ridQuote : RE := .tok (fun c => c = '"' || c = squote)

/-- Optional underscore or dash inside the request-id key. -/
def ridKeySep : RE := reOpt (.tok (fun c => c = '_' || c = '-'))

/-- The compiled request-id pattern of the scanner, transcribed from its
Python text: an optionally quoted key among the request-id spellings, one
or more separators, then an optionally quoted identifier capture. -/
def requestIdRe : RE :=
  reCat [reOpt (csChar '"'),
    reAlts [reCat [ciLit "request", ridKeySep, ciLit "id"],
            reCat [ciLit "req", ridKeySep, ciLit "id"],
            ciLit "requestId"],
    reOpt (csChar '"'),
    rePlus ridSep,
    reOpt ridQuote,
    rePlus (.tok isIdChar),
    reOpt ridQuote]

/-- Recover the capture group of the request-id pattern from the whole
matched text: the group is the identifier run at the end of the match,
after an optional closing quote, because no identifier character can occur
between the separators and the group. -/
def requestIdOfMatch (m : List Char) : List Char :=
  let core := match m.reverse with
    | c :: rest => if c = '"' || c = squote then rest else m.reverse
    | [] => m.reverse
  (core.takeWhile isIdChar).reverse

/-- The identifier validity predicate of the scanner: reject empty,
reject case-insensitive membership in the known invalid values, reject
length below six. -/
def isValidRequestId (rid : String) : Bool :=
  if rid = "" then false
  else if (["null", "none", "undefined", "nil", "empty"].map String.data).contains
      (rid.data.map pyLower) then false
  else if rid.length < 6 then false
  else true

/-- Fold one line into the request-id accumulator: every findall result
is kept when it is non-empty, valid, and not already collected, in
first-seen order. -/
def addLineIds (acc : List String) (line : List Char) : List String :=
  (reFindAll requestIdRe line).foldl (fun a m =>
    let rid := String.mk (requestIdOfMatch m)
    if rid ≠ "" && isValidRequestId rid && !a.contains rid then a ++ [rid] else a) acc

/-- All request identifiers extracted from a window of lines. -/
def extractAllRequestIds (lines : List (List Char)) : List String :=
  lines.foldl addLineIds []

/-- The first extracted identifier, kept for backward compatibility. -/
def extractRequestId (lines : List (List Char)) : Option String :=
  (extractAllRequestIds lines).head?

end BugAgent

namespace BugAgent

/-- Dash literal. -/
def reDash : RE := csChar '-'

/-- Colon literal. -/
def reColon : RE := csChar ':'

/-- A letter token for the month abbreviation class. -/
def reAlpha : RE := .tok (fun c => ('a' ≤ c && c ≤ 'z') || ('A' ≤ c && c ≤ 'Z'))

/-- ISO timestamp pattern with optional fraction and zone, transcribed
from the first compiled timestamp pattern. -/
def tsIsoRe : RE :=
  reCat [reDigits 4, reDash, reDigits 2, reDash, reDigits 2,
    .tok (fun c => c = 'T' || isSpaceChar c),
    reDigits 2, reColon, reDigits 2, reColon, reDigits 2,
    reOpt (reCat [csChar '.', reDigits 3]),
    reOpt (.alt (csChar 'Z')
      (reCat [.tok (fun c => c = '+' || c = '-'), reDigits 2, reOpt reColon, reDigits 2]))]

/-- Simple date-time timestamp pattern. -/
def tsSimpleRe : RE :=
  reCat [reDigits 4, reDash, reDigits 2, reDash, reDigits 2, csChar ' ',
    reDigits 2, reColon, reDigits 2, reColon, reDigits 2]

/-- Unix epoch pattern: ten to thirteen digits. -/
def tsEpochRe : RE := reDigitRange 10 3

/-- Month-name timestamp pattern. -/
def tsMonRe : RE :=
  reCat [reAlpha, reAlpha, reAlpha, csChar ' ', reDigit, reOpt reDigit, csChar ' ',
    reDigits 2, reColon, reDigits 2, reColon, reDigits 2]

/-- Bracketed month-day pattern; the capture group excludes the brackets. -/
def tsBracketMdRe : RE :=
  reCat [csChar '[', reDigits 2, reDash, reDigits 2, csChar ' ',
    reDigits 2, reColon, reDigits 2, reColon, reDigits 2, csChar ']']

/-- Bracketed time-of-day pattern; the capture group excludes the
brackets. -/
def tsBracketTimeRe : RE :=
  reCat [csChar '[', reDigits 2, reColon, reDigits 2, reColon, reDigits 2,
    reOpt (reCat [csChar '.', reDigits 3]), csChar ']']

/-- The ordered timestamp pattern table; the natural number is how many
characters on each side the capture group drops from the whole match
(one for the bracketed patterns, zero otherwise). -/
def timestampPatternList : List (RE × Nat) :=
  [(tsIsoRe, 0), (tsSimpleRe, 0), (tsEpochRe, 0), (tsMonRe, 0),
   (tsBracketMdRe, 1), (tsBracketTimeRe, 1)]

/-- Drop the last n characters; helper for the bracketed capture groups. -/
def dropLastN (n : Nat) (l : List Char) : List Char := l.take (l.length - n)

/-- First timestamp group found in one line, trying patterns in order. -/
def extractTimestampLine (line : List Char) : Option (List Char) :=
  timestampPatternList.findSome? (fun pr =>
    (reFind pr.1 line).map (fun r => dropLastN pr.2 (r.2.1.drop pr.2)))

/-- First timestamp found across a window of lines: the first line whose
first matching pattern yields a group wins. -/
def extractTimestamp (lines : List (List Char)) : Option String :=
  (lines.findSome? extractTimestampLine).map String.mk

end BugAgent

namespace BugAgent

/-- The LogError record of models.py (a detected frontend error). -/
structure LogError where
  timestamp : Option String
  request_id : Option String
  request_ids : List String
  error_type : String
  log_segment : String
  context_before : List String
  context_after : List String
  line_number : Nat
  deriving DecidableEq, Repr

/-- Timestamp removal pattern of the signature normalization; its Python
text coincides with the first timestamp pattern. -/
def sigTsRe1 : RE := tsIsoRe

/-- Bracketed month-day removal pattern of the signature normalization. -/
def sigTsRe2 : RE := tsBracketMdRe

/-- Bare integer pattern replaced by a placeholder in the signature. -/
def sigNumRe : RE := reCat [.wordB, rePlus reDigit, .wordB]

/-- Hexadecimal digit test. -/
def isHexChar (c : Char) : Bool :=
  isDigitChar c || ('a' ≤ c && c ≤ 'f') || ('A' ≤ c && c ≤ 'F')

/-- Hex address pattern replaced by a placeholder in the signature. -/
def sigHexRe : RE := reCat [csLit "0x", rePlus (.tok isHexChar)]

/-- Path separator test (forward or backward slash). -/
def isPathSep (c : Char) : Bool := c = '/' || c = '\\'

/-- Characters allowed inside the collapsed path body. -/
def isPathBodyChar (c : Char) : Bool :=
  isWordChar c || isPathSep c || c = '.' || c = '-'

/-- File path pattern whose match is collapsed to its basename. -/
def sigPathRe : RE :=
  reCat [.tok isPathSep, rePlus (.tok isPathBodyChar), .tok isPathSep,
    rePlus (.tok isWordChar), csChar '.', rePlus (.tok isWordChar)]

/-- Recover the basename capture group of the path pattern from the whole
matched text: the group is the run after the last path separator, because
the group itself contains no separator. -/
def pathBasename (m : List Char) : List Char :=
  (m.reverse.takeWhile (fun c => !isPathSep c)).reverse

/-- The signature used for scan deduplication: the stripped message with
timestamps removed, integers and hex addresses replaced by placeholders,
paths collapsed to basenames and whitespace normalized, lowercased and
prefixed by the error category. -/
def createErrorSignature (e : LogError) : String :=
  let m := pyStrip e.log_segment.data
  let m := reSub sigTsRe1 (fun _ => []) m
  let m := reSub sigTsRe2 (fun _ => []) m
  let m := reSub sigNumRe (fun _ => ['N']) m
  let m := reSub sigHexRe (fun _ => "0xADDR".data) m
  let m := reSub sigPathRe pathBasename m
  let m := joinSpace (splitWs m)
  String.mk (e.error_type.data ++ ':' :: m.map pyLower)

/-- The request-id context slice around a detected line. -/
def ridContext (lines : List (List Char)) (lineNum : Nat) (ridWindow : Int) :
    List (List Char) :=
  pySlice lines (max 0 ((lineNum : Int) - ridWindow))
    (min (lines.length : Int) ((lineNum : Int) + ridWindow + 1))

/-- The narrower fixed window the timestamp is searched in: two lines
before the error line up to one line after it. -/
def tsContext (lines : List (List Char)) (lineNum : Nat) : List (List Char) :=
  pySlice lines (max 0 ((lineNum : Int) - 2))
    (min (lines.length : Int) ((lineNum : Int) + 2))

/-- Build the LogError for one detected line from the context slices. -/
def extractErrorDetails (lines : List (List Char)) (lineNum : Nat)
    (errorLine : List Char) (errorType : String) (ridWindow : Int) : LogError :=
  { timestamp := extractTimestamp (tsContext lines lineNum),
    request_id := extractRequestId (ridContext lines lineNum ridWindow),
    request_ids := extractAllRequestIds (ridContext lines lineNum ridWindow),
    error_type := errorType,
    log_segment := String.mk errorLine,
    context_before := [],
    context_after := [],
    line_number := lineNum + 1 }

/-- The scan loop over enumerated lines, threading the set of seen
signatures as an explicit accumulator: excluded lines are skipped, the
first matching rule classifies a line, and a candidate whose signature was
already seen is discarded. -/
def scanForErrorsAux (lines : List (List Char)) (ridWindow : Int) :
    List (Nat × List Char) → List String → List LogError
  | [], _ => []
  | (i, line) :: rest, seen =>
    if shouldExcludeLine line then scanForErrorsAux lines ridWindow rest seen
    else
      match firstPatternType line with
      | none => scanForErrorsAux lines ridWindow rest seen
      | some et =>
        let err := extractErrorDetails lines i line et ridWindow
        let sig := createErrorSignature err
        if seen.contains sig then scanForErrorsAux lines ridWindow rest seen
        else err :: scanForErrorsAux lines ridWindow rest (sig :: seen)

/-- The scan entry point scan_for_errors; the context_lines parameter is
accepted but deprecated and never read, exactly as in the source. -/
def scanForErrors (logContent : String) (contextLines : Int) (ridWindow : Int) :
    List LogError :=
  let lines := splitLines logContent.data
  scanForErrorsAux lines ridWindow lines.enum []

end BugAgent

namespace BugAgent

/-- Leap year test of the proleptic Gregorian calendar used by datetime. -/
def isLeapYear (y : Int) : Bool :=
  (y % 4 = 0 && y % 100 ≠ 0) || y % 400 = 0

/-- Number of days of a month, as validated by the datetime constructor. -/
def daysInMonth (y : Int) (m : Nat) : Nat :=
  if m = 2 then (if isLeapYear y then 29 else 28)
  else if m = 4 || m = 6 || m = 9 || m = 11 then 30
  else 31

/-- Days since the epoch of a civil date (standard civil-from-days
bijection; division on Int is floor division for positive divisors). -/
def daysFromCivil (y : Int) (m d : Nat) : Int :=
  let yy : Int := if m ≤ 2 then y - 1 else y
  let era : Int := yy / 400
  let yoe : Int := yy - era * 400
  let mp : Int := if m > 2 then (m : Int) - 3 else (m : Int) + 9
  let doy : Int := (153 * mp + 2) / 5 + d - 1
  let doe : Int := yoe * 365 + yoe / 4 - yoe / 100 + doy
  era * 146097 + doe - 719468

/-- Civil date of a number of days since the epoch, the inverse of
daysFromCivil. -/
def civilFromDays (z0 : Int) : Int × Int × Int :=
  let z : Int := z0 + 719468
  let era : Int := z / 146097
  let doe : Int := z - era * 146097
  let yoe : Int := (doe - doe / 1460 + doe / 36524 - doe / 146096) / 365
  let y : Int := yoe + era * 400
  let doy : Int := doe - (365 * yoe + yoe / 4 - yoe / 100)
  let mp : Int := (5 * doy + 2) / 153
  let d : Int := doy - (153 * mp + 2) / 5 + 1
  let m : Int := if mp < 10 then mp + 3 else mp - 9
  (if m ≤ 2 then y + 1 else y, m, d)

/-- Epoch seconds of a validated datetime, modelling the datetime
constructor inside strptime: the field ranges are those the constructor
accepts (the construction raises otherwise, which strptime surfaces as a
ValueError and the caller treats as a failed format). -/
def mkEpoch (y : Int) (mo d h mi s : Nat) : Option Int :=
  if 1 ≤ y && 1 ≤ mo && mo ≤ 12 && 1 ≤ d && d ≤ daysInMonth y mo &&
      h ≤ 23 && mi ≤ 59 && s ≤ 59 then
    some (daysFromCivil y mo d * 86400 + h * 3600 + mi * 60 + s)
  else none

/-- Take up to n leading decimal digits. -/
def takeDigits : Nat → List Char → List Char × List Char
  | 0, s => ([], s)
  | _ + 1, [] => ([], [])
  | n + 1, c :: cs =>
    if isDigitChar c then
      let (ds, r) := takeDigits n cs
      (c :: ds, r)
    else ([], c :: cs)

/-- Numeric value of a digit string. -/
def digitsVal (ds : List Char) : Nat :=
  ds.foldl (fun a c => 10 * a + (c.toNat - 48)) 0

/-- Greedy numeric field of at least lo and at most hi digits, the way
strptime consumes its numeric directives. -/
def pNum (lo hi : Nat) (s : List Char) : Option (Nat × List Char) :=
  let (ds, r) := takeDigits hi s
  if ds.length < lo then none else some (digitsVal ds, r)

/-- One mandatory literal character. -/
def pLit (c : Char) (s : List Char) : Option (List Char) :=
  match s with
  | d :: r => if d = c then some r else none
  | [] => none

/-- Month number of a case-insensitive English month abbreviation, the
strptime directive for abbreviated month names. -/
def monthOfAbbr (s : List Char) : Option (Nat × List Char) :=
  match s with
  | a :: b :: c :: r =>
    let key := String.mk ([a, b, c].map pyLower)
    let tbl : List (String × Nat) :=
      [("jan", 1), ("feb", 2), ("mar", 3), ("apr", 4), ("may", 5), ("jun", 6),
       ("jul", 7), ("aug", 8), ("sep", 9), ("oct", 10), ("nov", 11), ("dec", 12)]
    (tbl.find? (fun p => p.1 = key)).map (fun p => (p.2, r))
  | _ => none

/-- Time-of-day component H:M:S shared by every format. -/
def pHms (s : List Char) : Option ((Nat × Nat × Nat) × List Char) := do
  let (h, s) ← pNum 1 2 s
  let s ← pLit ':' s
  let (mi, s) ← pNum 1 2 s
  let s ← pLit ':' s
  let (se, s) ← pNum 1 2 s
  pure ((h, mi, se), s)

/-- Date component Y-m-d shared by the full-date formats. -/
def pYmd (s : List Char) : Option ((Nat × Nat × Nat) × List Char) := do
  let (y, s) ← pNum 1 4 s
  let s ← pLit '-' s
  let (mo, s) ← pNum 1 2 s
  let s ← pLit '-' s
  let (d, s) ← pNum 1 2 s
  pure ((y, mo, d), s)

/-- Fractional-second component of the formats that carry one; the value
is parsed and discarded because instants are modelled at second
granularity. -/
def pFrac (s : List Char) : Option (List Char) := do
  let s ← pLit '.' s
  let (_, s) ← pNum 1 6 s
  pure s

/-- The current civil date, threaded explicitly to model the calls to
datetime.now inside the source timestamp parser. -/
structure Today where
  year : Int
  month : Nat
  day : Nat
  deriving DecidableEq, Repr

/-- Full-date formats: a date, a separator, a time, an optional fraction
and an optional trailing Z, each corresponding to one strptime format
string of the source list (the whole input must be consumed). -/
def pFullDate (sep : Char) (withFrac withZ : Bool) (s : List Char) : Option Int := do
  let (ymd, s) ← pYmd s
  let s ← pLit sep s
  let (hms, s) ← pHms s
  let s ← if withFrac then pFrac s else pure s
  let s ← if withZ then pLit 'Z' s else pure s
  if s.isEmpty then mkEpoch ymd.1 ymd.2.1 ymd.2.2 hms.1 hms.2.1 hms.2.2 else none

/-- The month-day format with no year: strptime defaults the year to
1900, and the source then replaces the year by the current year. -/
def pMonthDay (today : Today) (s : List Char) : Option Int := do
  let (mo, s) ← pNum 1 2 s
  let s ← pLit '-' s
  let (d, s) ← pNum 1 2 s
  let s ← pLit ' ' s
  let (hms, s) ← pHms s
  if s.isEmpty then do
    let _ ← mkEpoch 1900 mo d hms.1 hms.2.1 hms.2.2
    mkEpoch today.year mo d hms.1 hms.2.1 hms.2.2
  else none

/-- The time-only formats: the source combines the parsed time with the
current date. -/
def pTimeOnly (today : Today) (withFrac : Bool) (s : List Char) : Option Int := do
  let (hms, s) ← pHms s
  let s ← if withFrac then pFrac s else pure s
  if s.isEmpty then mkEpoch today.year today.month today.day hms.1 hms.2.1 hms.2.2
  else none

/-- The month-abbreviation format, with the 1900 default year replaced by
the current year as in the source. -/
def pMonthAbbr (today : Today) (s : List Char) : Option Int := do
  let (mo, s) ← monthOfAbbr s
  let s ← pLit ' ' s
  let (d, s) ← pNum 1 2 s
  let s ← pLit ' ' s
  let (hms, s) ← pHms s
  if s.isEmpty then do
    let _ ← mkEpoch 1900 mo d hms.1 hms.2.1 hms.2.2
    mkEpoch today.year mo d hms.1 hms.2.1 hms.2.2
  else none

/-- Highest epoch second datetime.fromtimestamp accepts (year 9999);
beyond it the source catches the error and falls through to the format
list. -/
def maxEpochSecond : Int := 253402300799

/-- The timestamp parser of CloudWatchFinder: the all-digits branch reads
an epoch value (milliseconds when above ten billion, truncated to seconds
in this model), then the ordered strptime format list is tried; the result
is the parsed instant in epoch seconds, or none. -/
def parseTimestamp (today : Today) (ts : String) : Option Int :=
  let s := ts.data
  if !s.isEmpty && s.all isDigitChar then
    let n : Int := digitsVal s
    let secs : Int := if n > 10000000000 then n / 1000 else n
    if secs ≤ maxEpochSecond then some secs else none
  else
    let tries : List (List Char → Option Int) :=
      [pFullDate 'T' true true, pFullDate 'T' false true,
       pFullDate 'T' true false, pFullDate 'T' false false,
       pFullDate ' ' true false, pFullDate ' ' false false,
       pMonthDay today, pTimeOnly today true, pTimeOnly today false,
       pMonthAbbr today]
    tries.findSome? (fun p => p s)

/-- Zero-padded two-digit rendering. -/
def pad2 (n : Int) : String :=
  if n < 10 then "0" ++ toString n else toString n

/-- The isoformat rendering of a naive datetime at second granularity,
used for the backend timestamp column. -/
def isoFormat (t : Int) : String :=
  let days := t / 86400
  let rem := t % 86400
  let ymd := civilFromDays days
  toString ymd.1 ++ "-" ++ pad2 ymd.2.1 ++ "-" ++ pad2 ymd.2.2 ++ "T" ++
    pad2 (rem / 3600) ++ ":" ++ pad2 (rem % 3600 / 60) ++ ":" ++ pad2 (rem % 60)

end BugAgent

namespace BugAgent

namespace Config

/-- Default request-id context window of config.py (env default 10). -/
def DEFAULT_CONTEXT_LINES : Int := 10

/-- Default correlation time window in minutes of config.py: the
os.getenv default is the string 120, so the documented default window is
plus or minus 120 minutes. -/
def DEFAULT_TIME_WINDOW_MINUTES : Int := 120

end Config

/-- The BackendLogEntry record of models.py; the timestamp is a required
datetime, modelled as epoch seconds. -/
structure BackendLogEntry where
  timestamp : Int
  message : String
  request_id : Option String
  log_group : String
  log_stream : String
  deriving DecidableEq, Repr

/-- The two correlation methods a candidate pair can carry. -/
inductive CorrMethod where
  | request_id_match : CorrMethod
  | time_based : CorrMethod
  deriving DecidableEq, Repr

/-- The correlation-info dictionary built by the matcher, as a record:
identifier matches carry the matched id, time matches carry the absolute
time difference in seconds. -/
structure CorrelationInfo where
  method : CorrMethod
  confidence : String
  matched_request_id : Option String
  time_diff_seconds : Option Int
  deriving DecidableEq, Repr

/-- CSV name of a correlation method. -/
def methodName : CorrMethod → String
  | .request_id_match => "request_id_match"
  | .time_based => "time_based"

/-- The identifier-matching first half of the correlation check: a truthy
backend request id matched against the request-id list and then against
the legacy single-id field. -/
def ridMatchInfo (e : LogError) (b : BackendLogEntry) : Option CorrelationInfo :=
  match b.request_id with
  | none => none
  | some brid =>
    if brid = "" then none
    else if !e.request_ids.isEmpty && e.request_ids.contains brid then
      some ⟨.request_id_match, "high", some brid, none⟩
    else
      match e.request_id with
      | some frid =>
        if frid ≠ "" && frid = brid then
          some ⟨.request_id_match, "high", some brid, none⟩
        else none
      | none => none

/-- The correlation check of the analyzer: identifier match first;
otherwise, when the frontend timestamp is present and parseable, the
frontend time is shifted by four hours to UTC and the pair correlates
exactly when the absolute difference is within the configured window. -/
def checkCorrelation (today : Today) (e : LogError) (b : BackendLogEntry) :
    Option CorrelationInfo :=
  match ridMatchInfo e b with
  | some info => some info
  | none =>
    match e.timestamp with
    | none => none
    | some tsStr =>
      if tsStr = "" then none
      else
        match parseTimestamp today tsStr with
        | none => none
        | some ft =>
          let futc := ft + 4 * 3600
          let diff : Int := (b.timestamp - futc).natAbs
          if diff ≤ Config.DEFAULT_TIME_WINDOW_MINUTES * 60 then
            some ⟨.time_based, "medium", none, some diff⟩
          else none

/-- Method component of the sort key of the matcher (the dictionary
lookup with default zero of the source, on the two method tags). -/
def methodScore (i : CorrelationInfo) : Nat :=
  match i.method with
  | .request_id_match => 2
  | .time_based => 1

/-- Log-severity component of the sort key: the first of ERROR, WARN,
WARNING, INFO, DEBUG whose lowercase form occurs in the lowercased
backend message, with the dictionary insertion order of the source;
unknown gives zero. -/
def logLevelScore (msg : List Char) : Nat :=
  let m := msg.map pyLower
  if containsStr "error".data m then 4
  else if containsStr "warn".data m then 3
  else if containsStr "warning".data m then 3
  else if containsStr "info".data m then 2
  else if containsStr "debug".data m then 1
  else 0

/-- The sort key of one candidate correlation: method score, time
difference (none models the missing key, read as infinity and negated to
minus infinity), and severity. -/
def corrKey (c : BackendLogEntry × CorrelationInfo) : Nat × Option Int × Nat :=
  (methodScore c.2, c.2.time_diff_seconds, logLevelScore c.1.message.data)

/-- Strict greater-than on the negated time difference, where a missing
difference reads as minus infinity. -/
def negDiffGt : Option Int → Option Int → Bool
  | some _, none => true
  | some x, some y => x < y
  | _, _ => false

/-- Equality on the negated time difference. -/
def negDiffEq : Option Int → Option Int → Bool
  | none, none => true
  | some x, some y => x = y
  | _, _ => false

/-- Lexicographic greater-or-equal on key tuples (method score, negated
time difference, severity), the order induced by reverse-sorting on the
source key. -/
def keyGeT (ka kb : Nat × Option Int × Nat) : Bool :=
  kb.1 < ka.1 ||
    (ka.1 = kb.1 &&
      (negDiffGt ka.2.1 kb.2.1 ||
        (negDiffEq ka.2.1 kb.2.1 && kb.2.2 ≤ ka.2.2)))

/-- The descending priority comparison on candidate correlations. -/
def corrKeyGe (a b : BackendLogEntry × CorrelationInfo) : Bool :=
  keyGeT (corrKey a) (corrKey b)

/-- Stable insertion for a descending sort: the new element goes before
the first element it compares greater-or-equal to, so elements with equal
keys keep their original order, as in the stable Python sort. -/
def insertDescBy (ge : α → α → Bool) (x : α) : List α → List α
  | [] => [x]
  | y :: ys => if ge x y then x :: y :: ys else y :: insertDescBy ge x ys

/-- Stable descending sort by a comparison. -/
def sortDescBy (ge : α → α → Bool) : List α → List α
  | [] => []
  | x :: xs => insertDescBy ge x (sortDescBy ge xs)

/-- The matcher: collect the correlating pairs, sort them by descending
priority and keep the configured maximum count. -/
def findCorrelatedBackends (today : Today) (e : LogError)
    (backendLogs : List BackendLogEntry) (maxCorrelations : Nat) :
    List (BackendLogEntry × CorrelationInfo) :=
  let correlations := backendLogs.filterMap
    (fun b => (checkCorrelation today e b).map (fun i => (b, i)))
  if correlations.isEmpty then []
  else (sortDescBy corrKeyGe correlations).take maxCorrelations

/-- Stable insertion for an ascending sort by a numeric key. -/
def insertAscBy (key : α → Nat) (x : α) : List α → List α
  | [] => [x]
  | y :: ys => if key x ≤ key y then x :: y :: ys else y :: insertAscBy key x ys

/-- Stable ascending sort by a numeric key. -/
def sortAscBy (key : α → Nat) : List α → List α
  | [] => []
  | x :: xs => insertAscBy key x (sortAscBy key xs)

/-- The time-window fallback of the table builder: backend entries within
the configured window of the parsed frontend time (with no four-hour
shift, unlike the matcher), closest first, at most three. -/
def findTimeBasedBackends (today : Today) (e : LogError)
    (backendLogs : List BackendLogEntry) : List BackendLogEntry :=
  match e.timestamp with
  | none => []
  | some tsStr =>
    if tsStr = "" then []
    else
      match parseTimestamp today tsStr with
      | none => []
      | some ft =>
        let timeBasedLogs := backendLogs.filter
          (fun b => ((b.timestamp - ft).natAbs : Int) ≤
            Config.DEFAULT_TIME_WINDOW_MINUTES * 60)
        (sortAscBy (fun b => (b.timestamp - ft).natAbs) timeBasedLogs).take 3

/-- The reported time difference of the fallback rows: the signed
difference between the backend time and the unshifted parsed frontend
time; none models the empty string of the source, and the numeric value
stands for the one-decimal string the source formats at second
granularity. -/
def calculateTimeDiff (today : Today) (e : LogError) (b : BackendLogEntry) :
    Option Int :=
  match e.timestamp with
  | none => none
  | some tsStr =>
    if tsStr = "" then none
    else (parseTimestamp today tsStr).map (fun ft => b.timestamp - ft)

/-- One flattened exported row of the correlation table; the
time_diff_seconds column is none when the source stores the empty string. -/
structure CorrelationRow where
  frontend_line_number : Nat
  frontend_timestamp : String
  frontend_error_type : String
  frontend_message : String
  frontend_request_ids : String
  backend_timestamp : String
  backend_message : String
  backend_log_group : String
  backend_log_stream : String
  backend_request_id : String
  matched_request_id : String
  correlation_method : String
  time_diff_seconds : Option Int
  deriving DecidableEq, Repr

/-- Row of a matcher correlation. -/
def rowOfMatch (e : LogError) (b : BackendLogEntry) (info : CorrelationInfo) :
    CorrelationRow :=
  { frontend_line_number := e.line_number,
    frontend_timestamp := e.timestamp.getD "",
    frontend_error_type := e.error_type,
    frontend_message := String.mk (pyStrip e.log_segment.data),
    frontend_request_ids := String.intercalate "," e.request_ids,
    backend_timestamp := isoFormat b.timestamp,
    backend_message := String.mk (pyStrip b.message.data),
    backend_log_group := b.log_group,
    backend_log_stream := b.log_stream,
    backend_request_id := b.request_id.getD "",
    matched_request_id := info.matched_request_id.getD "",
    correlation_method := methodName info.method,
    time_diff_seconds := info.time_diff_seconds }

/-- Row of a time-window fallback entry. -/
def rowOfTimeWindow (today : Today) (e : LogError) (b : BackendLogEntry) :
    CorrelationRow :=
  { frontend_line_number := e.line_number,
    frontend_timestamp := e.timestamp.getD "",
    frontend_error_type := e.error_type,
    frontend_message := String.mk (pyStrip e.log_segment.data),
    frontend_request_ids := String.intercalate "," e.request_ids,
    backend_timestamp := isoFormat b.timestamp,
    backend_message := String.mk (pyStrip b.message.data),
    backend_log_group := b.log_group,
    backend_log_stream := b.log_stream,
    backend_request_id := b.request_id.getD "",
    matched_request_id := "",
    correlation_method := "time_window",
    time_diff_seconds := calculateTimeDiff today e b }

/-- Degraded row of an error with no backend activity at all. -/
def noCorrelationRow (e : LogError) : CorrelationRow :=
  { frontend_line_number := e.line_number,
    frontend_timestamp := e.timestamp.getD "",
    frontend_error_type := e.error_type,
    frontend_message := String.mk (pyStrip e.log_segment.data),
    frontend_request_ids := String.intercalate "," e.request_ids,
    backend_timestamp := "",
    backend_message := "",
    backend_log_group := "",
    backend_log_stream := "",
    backend_request_id := "",
    matched_request_id := "",
    correlation_method := "no_correlation",
    time_diff_seconds := none }

/-- Rows contributed by one frontend error: the matcher rows when the
matcher found anything, otherwise the time-window fallback rows when the
fallback found anything, otherwise exactly one degraded row. -/
def rowsForError (today : Today) (backendLogs : List BackendLogEntry)
    (maxCorrelationsPerError : Nat) (e : LogError) : List CorrelationRow :=
  let correlated := findCorrelatedBackends today e backendLogs maxCorrelationsPerError
  if !correlated.isEmpty then
    correlated.map (fun p => rowOfMatch e p.1 p.2)
  else
    let timeBased := findTimeBasedBackends today e backendLogs
    if !timeBased.isEmpty then timeBased.map (rowOfTimeWindow today e)
    else [noCorrelationRow e]

/-- The correlation table builder of the analyzer. -/
def createDirectCorrelationMappings (today : Today)
    (frontendErrors : List LogError) (backendLogs : List BackendLogEntry)
    (maxCorrelationsPerError : Nat) : List CorrelationRow :=
  frontendErrors.flatMap (rowsForError today backendLogs maxCorrelationsPerError)

/-- The CSV column names of the export. -/
def csvFieldNames : List String :=
  ["frontend_line_number", "frontend_timestamp", "frontend_error_type",
   "frontend_message", "frontend_request_ids", "backend_timestamp",
   "backend_message", "backend_log_group", "backend_log_stream",
   "backend_request_id", "matched_request_id", "correlation_method",
   "time_diff_seconds"]

/-- CSV escaping of the export: a value containing a comma or quote is
wrapped in quotes with internal quotes doubled. -/
def csvEscape (v : String) : String :=
  if v.data.contains ',' || v.data.contains '"' then
    String.mk ('"' :: v.data.flatMap (fun c => if c = '"' then ['"', '"'] else [c]) ++ ['"'])
  else v

/-- Rendering of the time-difference column: empty when absent, and the
decimal rendering of the value otherwise (the str of the float and the
one-decimal format agree at second granularity). -/
def renderTimeDiff : Option Int → String
  | none => ""
  | some n => toString n ++ ".0"

/-- The column values of one row, in field order, as the str conversion
of the export produces them. -/
def rowValues (r : CorrelationRow) : List String :=
  [toString r.frontend_line_number, r.frontend_timestamp, r.frontend_error_type,
   r.frontend_message, r.frontend_request_ids, r.backend_timestamp,
   r.backend_message, r.backend_log_group, r.backend_log_stream,
   r.backend_request_id, r.matched_request_id, r.correlation_method,
   renderTimeDiff r.time_diff_seconds]

/-- The CSV text produced by export_correlations_to_csv (the S3 upload
and local save around it are excluded I/O): the global_deduplication
parameter is accepted exactly as in the source, which never reads it and
always builds the table with the plain mapping call. -/
def exportCorrelationsToCsv (today : Today) (frontendErrors : List LogError)
    (backendLogs : List BackendLogEntry) (globalDeduplication : Bool) : String :=
  let correlations := createDirectCorrelationMappings today frontendErrors backendLogs 3
  let header := String.intercalate "," csvFieldNames
  let rows := correlations.map (fun r => String.intercalate "," ((rowValues r).map csvEscape))
  String.intercalate "\n" (header :: rows)

end BugAgent

namespace BugAgent

/-! ## Specification-side helper definitions

These definitions restate parts of the scan pipeline in a shape suitable
for stating properties; the theorems below relate them to the executable
embedding above. -/

/-- Keep-first deduplication by a signature function, relative to a list
of already seen signatures: the specification shape of the scan loop. -/
def dedupKeepFirstBy (f : α → String) : List α → List String → List α
  | [], _ => []
  | x :: xs, seen =>
    if seen.contains (f x) then dedupKeepFirstBy f xs seen
    else x :: dedupKeepFirstBy f xs (f x :: seen)

/-- The candidate error records of a scan over enumerated lines, before
any deduplication: one candidate per non-excluded line with a matching
classification rule. -/
def scanCandidates (lines : List (List Char)) (ridWindow : Int)
    (el : List (Nat × List Char)) : List LogError :=
  el.filterMap (fun p =>
    if shouldExcludeLine p.2 then none
    else (firstPatternType p.2).map
      (fun et => extractErrorDetails lines p.1 p.2 et ridWindow))

/-- The candidate records of a scan of a whole text. -/
def scanCandidatesOf (logContent : String) (ridWindow : Int) : List LogError :=
  let lines := splitLines logContent.data
  scanCandidates lines ridWindow lines.enum

/-- Keep-first deduplication of a string list against an accumulator of
already emitted strings. -/
def dedupFirstAux : List String → List String → List String
  | [], acc => acc
  | x :: xs, acc =>
    if acc.contains x then dedupFirstAux xs acc else dedupFirstAux xs (acc ++ [x])

/-- The raw request-id captures of a window of lines, in scan order,
before validity filtering and deduplication. -/
def rawRequestIds (lines : List (List Char)) : List String :=
  lines.flatMap (fun l =>
    (reFindAll requestIdRe l).map (fun m => String.mk (requestIdOfMatch m)))

/-- The validity filter applied to one raw capture (the truthiness test
and the shared validity predicate). -/
def ridKeepPred (r : String) : Bool := r ≠ "" && isValidRequestId r

/-- The raw captures that survive the validity filter, in order. -/
def validRequestIdsOf (lines : List (List Char)) : List String :=
  (rawRequestIds lines).filter ridKeepPred

/-- One accumulator step of the request-id collection. -/
def ridStep (a : List String) (rid : String) : List String :=
  if ridKeepPred rid && !a.contains rid then a ++ [rid] else a

end BugAgent

namespace BugAgent

/-! ## Scanner lemmas -/

/-- A slice whose stop is nonnegative and does not exceed its start is
empty, as in Python (a negative stop instead wraps around). -/
theorem pySlice_of_nonneg_stop_le_start (l : List α) {a b : Int}
    (hb : 0 ≤ b) (h : b ≤ a) : pySlice l a b = [] := by
  unfold pySlice pyIndex
  rw [if_neg (by omega), if_neg (by omega)]
  have hle : (min ((l.length : Nat) : Int) b).toNat ≤
      (min ((l.length : Nat) : Int) a).toNat := by omega
  simp [Nat.sub_eq_zero_of_le hle]

/-- The scan loop is keep-first deduplication by signature over the
candidate list. -/
theorem scanAux_eq_dedup (lines : List (List Char)) (w : Int)
    (el : List (Nat × List Char)) (seen : List String) :
    scanForErrorsAux lines w el seen =
      dedupKeepFirstBy createErrorSignature (scanCandidates lines w el) seen := by
  induction el generalizing seen with
  | nil => rfl
  | cons p rest ih =>
    obtain ⟨i, line⟩ := p
    by_cases hex : shouldExcludeLine line
    · simpa [scanForErrorsAux, scanCandidates, hex, List.filterMap_cons] using ih seen
    · cases hcls : firstPatternType line with
      | none =>
        simpa [scanForErrorsAux, scanCandidates, hex, hcls, List.filterMap_cons]
          using ih seen
      | some et =>
        by_cases hseen :
            createErrorSignature (extractErrorDetails lines i line et w) ∈ seen
        · simpa [scanForErrorsAux, scanCandidates, hex, hcls, hseen,
            List.filterMap_cons, dedupKeepFirstBy] using ih seen
        · simpa [scanForErrorsAux, scanCandidates, hex, hcls, hseen,
            List.filterMap_cons, dedupKeepFirstBy] using ih _

/-- The scan of a text is keep-first deduplication by signature over the
candidates of the text. -/
theorem scanForErrors_eq_dedup (t : String) (c r : Int) :
    scanForErrors t c r =
      dedupKeepFirstBy createErrorSignature (scanCandidatesOf t r) [] :=
  scanAux_eq_dedup _ r _ []

/-- Every element surviving keep-first deduplication was a candidate. -/
theorem mem_of_mem_dedupKeepFirstBy {f : α → String} {l : List α}
    {seen : List String} {x : α} (h : x ∈ dedupKeepFirstBy f l seen) : x ∈ l := by
  induction l generalizing seen with
  | nil => simp [dedupKeepFirstBy] at h
  | cons y ys ih =>
    by_cases hs : f y ∈ seen
    · simp only [dedupKeepFirstBy, if_pos (List.elem_eq_true_of_mem hs)] at h
      exact List.mem_cons_of_mem _ (ih h)
    · rw [dedupKeepFirstBy, if_neg (fun hc => hs (List.mem_of_elem_eq_true hc))] at h
      rcases List.mem_cons.mp h with h | h
      · simp [h]
      · exact List.mem_cons_of_mem _ (ih h)

/-- Signatures of the deduplicated output are distinct and avoid the seen
accumulator. -/
theorem dedup_sig_nodup (f : α → String) (l : List α) (seen : List String) :
    ((dedupKeepFirstBy f l seen).map f).Nodup ∧
      ∀ x ∈ dedupKeepFirstBy f l seen, f x ∉ seen := by
  induction l generalizing seen with
  | nil => simp [dedupKeepFirstBy]
  | cons y ys ih =>
    by_cases hs : f y ∈ seen
    · rw [dedupKeepFirstBy, if_pos (List.elem_eq_true_of_mem hs)]
      exact ih seen
    · rw [dedupKeepFirstBy, if_neg (fun hc => hs (List.mem_of_elem_eq_true hc))]
      obtain ⟨h1, h2⟩ := ih (f y :: seen)
      refine ⟨?_, ?_⟩
      · rw [List.map_cons, List.nodup_cons]
        refine ⟨fun hmem => ?_, h1⟩
        obtain ⟨x, hx, hfx⟩ := List.mem_map.mp hmem
        exact (h2 x hx) (by simp [hfx])
      · intro x hx
        rcases List.mem_cons.mp hx with rfl | hx
        · exact hs
        · exact fun hc => (h2 x hx) (List.mem_cons_of_mem _ hc)

/-- Shape of a scan candidate: it is the detail extraction of some
enumerated line that was not excluded and got classified. -/
theorem mem_scanCandidates {lines : List (List Char)} {w : Int}
    {el : List (Nat × List Char)} {e : LogError} (h : e ∈ scanCandidates lines w el) :
    ∃ i line et, (i, line) ∈ el ∧ shouldExcludeLine line = false ∧
      firstPatternType line = some et ∧ e = extractErrorDetails lines i line et w := by
  unfold scanCandidates at h
  rw [List.mem_filterMap] at h
  obtain ⟨⟨i, line⟩, hmem, hval⟩ := h
  by_cases hex : shouldExcludeLine line
  · simp [hex] at hval
  · cases hcls : firstPatternType line with
    | none => simp [hex, hcls] at hval
    | some et =>
      simp only [hex, if_neg, Bool.not_eq_true, hcls, Option.map_some] at hval
      exact ⟨i, line, et, hmem, by simp [hex], hcls, (Option.some.injEq _ _).mp hval.symm⟩

/-- Every record produced by a scan is a candidate record. -/
theorem mem_scan_shape {t : String} {c r : Int} {e : LogError}
    (h : e ∈ scanForErrors t c r) :
    ∃ i line et, (i, line) ∈ (splitLines t.data).enum ∧
      shouldExcludeLine line = false ∧ firstPatternType line = some et ∧
      e = extractErrorDetails (splitLines t.data) i line et r := by
  rw [scanForErrors_eq_dedup] at h
  exact mem_scanCandidates (mem_of_mem_dedupKeepFirstBy h)

end BugAgent

namespace BugAgent

/-- One collection step preserves validity and distinctness of the
accumulator. -/
theorem ridStep_inv {a : List String} (rid : String)
    (h : (∀ r ∈ a, ridKeepPred r = true) ∧ a.Nodup) :
    (∀ r ∈ ridStep a rid, ridKeepPred r = true) ∧ (ridStep a rid).Nodup := by
  unfold ridStep
  by_cases hk : ridKeepPred rid && !a.contains rid
  · rw [if_pos hk]
    obtain ⟨hv, hn⟩ := h
    obtain ⟨hk1, hk2⟩ := Bool.and_eq_true_iff.mp hk
    constructor
    · intro r hr
      rcases List.mem_append.mp hr with hr | hr
      · exact hv r hr
      · rw [List.mem_singleton.mp hr]; exact hk1
    · have hnotmem : rid ∉ a := by
        intro hmem
        have hc : a.contains rid = true := List.elem_eq_true_of_mem hmem
        rw [hc] at hk2
        simp at hk2
      simp [List.nodup_append, hn, hnotmem]
  · rw [if_neg hk]; exact h

/-- Folding collection steps preserves validity and distinctness. -/
theorem ridStep_foldl_inv (ms : List String) (a : List String)
    (h : (∀ r ∈ a, ridKeepPred r = true) ∧ a.Nodup) :
    (∀ r ∈ ms.foldl ridStep a, ridKeepPred r = true) ∧ (ms.foldl ridStep a).Nodup := by
  induction ms generalizing a with
  | nil => simpa using h
  | cons m ms ih => exact ih _ (ridStep_inv m h)

/-- The line-level collection is folding the step over the raw captures
of the line. -/
theorem addLineIds_eq_foldl (a : List String) (line : List Char) :
    addLineIds a line =
      ((reFindAll requestIdRe line).map
        (fun m => String.mk (requestIdOfMatch m))).foldl ridStep a := by
  rw [List.foldl_map]
  rfl

/-- The whole extraction is folding the step over all raw captures. -/
theorem extractAllRequestIds_eq_foldl (lines : List (List Char)) :
    extractAllRequestIds lines = (rawRequestIds lines).foldl ridStep [] := by
  suffices h : ∀ acc, lines.foldl addLineIds acc = (rawRequestIds lines).foldl ridStep acc by
    exact h []
  induction lines with
  | nil => intro acc; rfl
  | cons l ls ih =>
    intro acc
    simp only [List.foldl_cons, ih, rawRequestIds, List.flatMap_cons,
      List.foldl_append, addLineIds_eq_foldl]

/-- Folding the step is keep-first deduplication of the filtered list. -/
theorem foldl_ridStep_eq_dedup (xs : List String) (acc : List String) :
    xs.foldl ridStep acc = dedupFirstAux (xs.filter ridKeepPred) acc := by
  induction xs generalizing acc with
  | nil => rfl
  | cons x xs ih =>
    by_cases hc0 : x ∈ acc
    all_goals by_cases hp : ridKeepPred x
    · have h1 : ridStep acc x = acc := by simp [ridStep, hc0]
      rw [List.foldl_cons, List.filter_cons_of_pos hp, h1, ih, dedupFirstAux,
        if_pos (List.elem_eq_true_of_mem hc0)]
    · have h1 : ridStep acc x = acc := by simp [ridStep, hp]
      rw [List.foldl_cons, List.filter_cons_of_neg hp, h1, ih]
    · have h1 : ridStep acc x = acc ++ [x] := by simp [ridStep, hp, hc0]
      rw [List.foldl_cons, List.filter_cons_of_pos hp, h1, ih, dedupFirstAux,
        if_neg (fun hcon => hc0 (List.mem_of_elem_eq_true hcon))]
    · have h1 : ridStep acc x = acc := by simp [ridStep, hp]
      rw [List.foldl_cons, List.filter_cons_of_neg hp, h1, ih]

/-- Extraction as specified: validity-filter the raw captures, then
deduplicate keeping first occurrences. -/
theorem extractAllRequestIds_spec (lines : List (List Char)) :
    extractAllRequestIds lines = dedupFirstAux (validRequestIdsOf lines) [] := by
  rw [extractAllRequestIds_eq_foldl, foldl_ridStep_eq_dedup]
  rfl

/-- Every extracted identifier is valid, and the extracted list has no
duplicates. -/
theorem extractAllRequestIds_valid_nodup (lines : List (List Char)) :
    (∀ r ∈ extractAllRequestIds lines, isValidRequestId r = true) ∧
      (extractAllRequestIds lines).Nodup := by
  rw [extractAllRequestIds_eq_foldl]
  have h := ridStep_foldl_inv (rawRequestIds lines) [] (by simp)
  refine ⟨fun r hr => ?_, h.2⟩
  have := h.1 r hr
  exact (Bool.and_eq_true_iff.mp this).2

end BugAgent

namespace BugAgent

/-- When two request-id windows both cover all lines, the extracted
details agree: the clamped slice is the whole line list either way. -/
theorem extractErrorDetails_window_congr (lines : List (List Char)) (i : Nat)
    (line : List Char) (et : String) {r1 r2 : Int}
    (h1 : (i : Int) ≤ r1) (h2 : (i : Int) ≤ r2)
    (h3 : (lines.length : Int) ≤ (i : Int) + r1 + 1)
    (h4 : (lines.length : Int) ≤ (i : Int) + r2 + 1) :
    extractErrorDetails lines i line et r1 = extractErrorDetails lines i line et r2 := by
  have hctx : ridContext lines i r1 = ridContext lines i r2 := by
    unfold ridContext
    have e1 : max (0 : Int) ((i : Int) - r1) = 0 := by omega
    have e2 : max (0 : Int) ((i : Int) - r2) = 0 := by omega
    have e3 : min ((lines.length : Nat) : Int) ((i : Int) + r1 + 1) = lines.length := by
      omega
    have e4 : min ((lines.length : Nat) : Int) ((i : Int) + r2 + 1) = lines.length := by
      omega
    rw [e1, e2, e3, e4]
  unfold extractErrorDetails
  rw [hctx]

/-- The scan loops of two request-id windows agree whenever the detail
extraction agrees on every enumerated line. -/
theorem scanAux_congr (lines : List (List Char)) {w1 w2 : Int}
    (el : List (Nat × List Char)) (seen : List String)
    (h : ∀ i line et, (i, line) ∈ el →
      extractErrorDetails lines i line et w1 = extractErrorDetails lines i line et w2) :
    scanForErrorsAux lines w1 el seen = scanForErrorsAux lines w2 el seen := by
  induction el generalizing seen with
  | nil => rfl
  | cons p rest ih =>
    obtain ⟨i, line⟩ := p
    have hrest : ∀ i line et, (i, line) ∈ rest →
        extractErrorDetails lines i line et w1 = extractErrorDetails lines i line et w2 :=
      fun i line et hm => h i line et (List.mem_cons_of_mem _ hm)
    by_cases hex : shouldExcludeLine line
    · simp only [scanForErrorsAux, hex, if_pos]
      exact ih seen hrest
    · cases hcls : firstPatternType line with
      | none =>
        simp only [scanForErrorsAux, hex, hcls]
        exact ih seen hrest
      | some et =>
        have hext := h i line et (List.mem_cons_self _ _)
        simp only [scanForErrorsAux, hex, hcls, hext]
        rw [ih seen hrest,
          ih (createErrorSignature (extractErrorDetails lines i line et w2) :: seen) hrest]

/-- A request-id window of minus one produces an empty context slice
(its clamped stop stays nonnegative, so no wrap-around happens), so no
identifiers at all are extracted. Windows of minus two or below are not
covered: their negative stop wraps around and can scan later lines. -/
theorem extractErrorDetails_neg_one_window (lines : List (List Char)) (i : Nat)
    (line : List Char) (et : String) :
    (extractErrorDetails lines i line et (-1)).request_ids = [] ∧
      (extractErrorDetails lines i line et (-1)).request_id = none := by
  have hctx : ridContext lines i (-1) = [] := by
    unfold ridContext
    apply pySlice_of_nonneg_stop_le_start
    · omega
    · omega
  unfold extractErrorDetails
  rw [hctx]
  exact ⟨rfl, rfl⟩

end BugAgent

namespace BugAgent

/-! ## Analyzer lemmas -/

/-- The priority comparison is total. -/
theorem keyGeT_total (ka kb : Nat × Option Int × Nat) :
    keyGeT ka kb = true ∨ keyGeT kb ka = true := by
  obtain ⟨sa, da, la⟩ := ka
  obtain ⟨sb, db, lb⟩ := kb
  unfold keyGeT negDiffGt negDiffEq
  rcases da with _ | x <;> rcases db with _ | y <;> simp <;> omega

/-- The priority comparison is transitive. -/
theorem keyGeT_trans {ka kb kc : Nat × Option Int × Nat}
    (h1 : keyGeT ka kb = true) (h2 : keyGeT kb kc = true) : keyGeT ka kc = true := by
  obtain ⟨sa, da, la⟩ := ka
  obtain ⟨sb, db, lb⟩ := kb
  obtain ⟨sc, dc, lc⟩ := kc
  unfold keyGeT negDiffGt negDiffEq at *
  rcases da with _ | x <;> rcases db with _ | y <;> rcases dc with _ | z <;>
    simp at * <;> omega

/-- Totality of the correlation comparison. -/
theorem corrKeyGe_total (a b : BackendLogEntry × CorrelationInfo) :
    corrKeyGe a b = true ∨ corrKeyGe b a = true :=
  keyGeT_total (corrKey a) (corrKey b)

/-- Transitivity of the correlation comparison. -/
theorem corrKeyGe_trans {a b c : BackendLogEntry × CorrelationInfo}
    (h1 : corrKeyGe a b = true) (h2 : corrKeyGe b c = true) : corrKeyGe a c = true :=
  keyGeT_trans h1 h2

/-- Membership in a descending insertion. -/
theorem mem_insertDescBy {ge : α → α → Bool} {x y : α} {l : List α} :
    y ∈ insertDescBy ge x l ↔ y = x ∨ y ∈ l := by
  induction l with
  | nil => simp [insertDescBy]
  | cons z zs ih =>
    by_cases hc : ge x z
    · simp [insertDescBy, hc]
    · simp [insertDescBy, hc, ih]
      tauto

/-- Inserting into a pairwise-descending list keeps it pairwise
descending, for a total transitive comparison. -/
theorem pairwise_insertDescBy {ge : α → α → Bool}
    (htot : ∀ a b, ge a b = true ∨ ge b a = true)
    (htrans : ∀ {a b c}, ge a b = true → ge b c = true → ge a c = true)
    {x : α} {l : List α} (hl : l.Pairwise (fun a b => ge a b = true)) :
    (insertDescBy ge x l).Pairwise (fun a b => ge a b = true) := by
  induction l with
  | nil => simp [insertDescBy]
  | cons y ys ih =>
    rcases List.pairwise_cons.mp hl with ⟨hy, hys⟩
    by_cases hc : ge x y
    · rw [insertDescBy, if_pos hc]
      refine List.pairwise_cons.mpr ⟨?_, hl⟩
      intro z hz
      rcases List.mem_cons.mp hz with rfl | hz
      · exact hc
      · exact htrans hc (hy z hz)
    · rw [insertDescBy, if_neg hc]
      refine List.pairwise_cons.mpr ⟨?_, ih hys⟩
      intro z hz
      rcases mem_insertDescBy.mp hz with rfl | hz
      · rcases htot z y with h | h
        · exact absurd h hc
        · exact h
      · exact hy z hz

/-- The descending sort is pairwise descending, for a total transitive
comparison. -/
theorem pairwise_sortDescBy {ge : α → α → Bool}
    (htot : ∀ a b, ge a b = true ∨ ge b a = true)
    (htrans : ∀ {a b c}, ge a b = true → ge b c = true → ge a c = true)
    (l : List α) : (sortDescBy ge l).Pairwise (fun a b => ge a b = true) := by
  induction l with
  | nil => simp [sortDescBy]
  | cons x xs ih => exact pairwise_insertDescBy htot (fun h1 h2 => htrans h1 h2) ih

/-- The matcher output is pairwise ordered by descending priority and
truncated to the requested maximum. -/
theorem findCorrelatedBackends_sorted_bounded (today : Today) (e : LogError)
    (pool : List BackendLogEntry) (maxC : Nat) :
    (findCorrelatedBackends today e pool maxC).Pairwise
        (fun a b => corrKeyGe a b = true) ∧
      (findCorrelatedBackends today e pool maxC).length ≤ maxC := by
  unfold findCorrelatedBackends
  by_cases hempty :
      (pool.filterMap (fun b => (checkCorrelation today e b).map (fun i => (b, i)))).isEmpty
  · simp [hempty]
  · rw [if_neg hempty]
    constructor
    · exact List.Pairwise.sublist (List.take_sublist _ _)
        (pairwise_sortDescBy corrKeyGe_total (fun h1 h2 => corrKeyGe_trans h1 h2) _)
    · simpa using List.length_take_le _ _

/-- Every row contributed by one error carries the line number of that
error. -/
theorem rowsForError_line_number (today : Today) (pool : List BackendLogEntry)
    (maxC : Nat) (e : LogError) :
    ∀ row ∈ rowsForError today pool maxC e,
      row.frontend_line_number = e.line_number := by
  intro row hrow
  unfold rowsForError at hrow
  by_cases h1 : (findCorrelatedBackends today e pool maxC).isEmpty
  · by_cases h2 : (findTimeBasedBackends today e pool).isEmpty
    · simp [h1, h2] at hrow
      rw [hrow]
      rfl
    · simp [h1, h2] at hrow
      obtain ⟨b, _, hb⟩ := hrow
      rw [← hb]
      rfl
  · simp [h1] at hrow
    obtain ⟨b, i, _, hb⟩ := hrow
    rw [← hb]
    rfl

/-- Every error contributes at least one row. -/
theorem rowsForError_ne_nil (today : Today) (pool : List BackendLogEntry)
    (maxC : Nat) (e : LogError) : rowsForError today pool maxC e ≠ [] := by
  unfold rowsForError
  by_cases h1 : (findCorrelatedBackends today e pool maxC).isEmpty
  · by_cases h2 : (findTimeBasedBackends today e pool).isEmpty
    · simp [h1, h2]
    · simp [h1, h2]
      intro hcon
      simp [hcon] at h2
  · simp [h1]
    intro hcon
    simp [hcon] at h1

/-- A flat map of nonempty blocks is at least as long as the input. -/
theorem length_le_length_flatMap {f : α → List β} {l : List α}
    (h : ∀ x ∈ l, f x ≠ []) : l.length ≤ (l.flatMap f).length := by
  induction l with
  | nil => simp
  | cons x xs ih =>
    rw [List.flatMap_cons, List.length_append, List.length_cons]
    have hx : 1 ≤ (f x).length := by
      have := h x (List.mem_cons_self _ _)
      cases hfx : f x with
      | nil => exact absurd hfx this
      | cons _ _ => simp
    have hxs : xs.length ≤ (xs.flatMap f).length :=
      ih (fun y hy => h y (List.mem_cons_of_mem _ hy))
    omega

end BugAgent

namespace BugAgent

/-! ## Claim fixtures and theorems (scanner) -/

/-- The sample log text of the specification scenario. -/
def c7sampleText : String :=
  "[ERROR] login failed request_id: abc123xyz\n[INFO] retry\n[ERROR] login failed request_id: abc123xyz"

/-- The single error record the sample scenario must produce. -/
def c7sampleRecord : LogError :=
  { timestamp := none, request_id := some "abc123xyz", request_ids := ["abc123xyz"],
    error_type := "LOG_LEVEL_ERROR",
    log_segment := "[ERROR] login failed request_id: abc123xyz",
    context_before := [], context_after := [], line_number := 1 }

set_option maxRecDepth 40000

/-- C7. Signature-based dedup idempotence: a scan is keep-first
deduplication by the (category, normalized segment) signature over the
candidate records, the emitted signatures are pairwise distinct, and the
sample text with any request-id window of at least three lines yields
exactly one record with category LOG_LEVEL_ERROR, request id abc123xyz
and line number one. -/
theorem c7_signature_dedup :
    (∀ (t : String) (c r : Int),
      scanForErrors t c r =
        dedupKeepFirstBy createErrorSignature (scanCandidatesOf t r) []) ∧
    (∀ (t : String) (c r : Int),
      ((scanForErrors t c r).map createErrorSignature).Nodup) ∧
    (∀ r : Int, 3 ≤ r → scanForErrors c7sampleText 10 r = [c7sampleRecord]) := by
  refine ⟨fun t c r => scanForErrors_eq_dedup t c r, ?_, ?_⟩
  · intro t c r
    rw [scanForErrors_eq_dedup]
    exact (dedup_sig_nodup createErrorSignature (scanCandidatesOf t r) []).1
  · intro r hr
    have hbase : scanForErrors c7sampleText 10 3 = [c7sampleRecord] := by decide
    rw [← hbase]
    unfold scanForErrors
    apply scanAux_congr
    intro i line et hmem
    have hsome := List.mk_mem_enum_iff_getElem?.mp hmem
    have hi : i < (splitLines c7sampleText.data).length := by
      rcases List.getElem?_eq_some.mp hsome with ⟨h, _⟩
      exact h
    have hlen : (splitLines c7sampleText.data).length = 3 := by decide
    rw [hlen] at hi
    have hlenZ : ((splitLines c7sampleText.data).length : Int) = 3 := by rw [hlen]; rfl
    apply extractErrorDetails_window_congr <;> omega

/-- Witness for C7 at the default request-id window of five lines. -/
theorem c7_signature_dedup_witness :
    scanForErrors c7sampleText 10 5 = [c7sampleRecord] :=
  c7_signature_dedup.2.2 5 (by norm_num)

/-- C8. Request-id validity invariant: every record a scan returns
carries only identifiers passing the validity predicate and no
duplicates, and the extraction is exactly keep-first deduplication of the
validity-filtered raw captures, in first-seen order. -/
theorem c8_request_id_validity :
    (∀ (t : String) (c r : Int) (e : LogError), e ∈ scanForErrors t c r →
      (∀ rid ∈ e.request_ids, isValidRequestId rid = true) ∧ e.request_ids.Nodup) ∧
    (∀ lines : List (List Char),
      extractAllRequestIds lines = dedupFirstAux (validRequestIdsOf lines) []) := by
  refine ⟨?_, extractAllRequestIds_spec⟩
  intro t c r e he
  obtain ⟨i, line, et, _, _, _, hshape⟩ := mem_scan_shape he
  have hids : e.request_ids = extractAllRequestIds (ridContext (splitLines t.data) i r) := by
    rw [hshape]; rfl
  rw [hids]
  exact extractAllRequestIds_valid_nodup _

/-- Witness for C8 at the sample scan. -/
theorem c8_request_id_validity_witness :
    (∀ rid ∈ c7sampleRecord.request_ids, isValidRequestId rid = true) ∧
      c7sampleRecord.request_ids.Nodup := by
  refine c8_request_id_validity.1 c7sampleText 10 5 c7sampleRecord ?_
  rw [c7_signature_dedup_witness]
  exact List.mem_singleton.mpr rfl

/-- C10. Context-lines noninterference: the deprecated context_lines
parameter never influences the scan result, and every returned record has
empty context lists. -/
theorem c10_context_lines_noninterference :
    (∀ (t : String) (c1 c2 r : Int), scanForErrors t c1 r = scanForErrors t c2 r) ∧
    (∀ (t : String) (c r : Int) (e : LogError), e ∈ scanForErrors t c r →
      e.context_before = [] ∧ e.context_after = []) := by
  refine ⟨fun t c1 c2 r => rfl, ?_⟩
  intro t c r e he
  obtain ⟨i, line, et, _, _, _, hshape⟩ := mem_scan_shape he
  rw [hshape]
  exact ⟨rfl, rfl⟩

/-- Witness for C10 at the sample scan. -/
theorem c10_context_lines_noninterference_witness :
    c7sampleRecord.context_before = [] ∧ c7sampleRecord.context_after = [] := by
  refine c10_context_lines_noninterference.2 c7sampleText 10 5 c7sampleRecord ?_
  rw [c7_signature_dedup_witness]
  exact List.mem_singleton.mpr rfl

end BugAgent

namespace BugAgent

/-! ## Claim fixtures and theorems (analyzer) -/

/-- A fixed current date for the concrete analyzer scenarios. -/
def today0 : Today := ⟨2024, 7, 30⟩

/-- C2 fixture: an error with a parseable timestamp and no identifiers. -/
def c2err : LogError :=
  { timestamp := some "2024-07-30 10:00:00", request_id := none, request_ids := [],
    error_type := "LOG_LEVEL_ERROR", log_segment := "[E] boom",
    context_before := [], context_after := [], line_number := 7 }

/-- C2 fixture: a backend entry at the unshifted frontend instant. -/
def c2log : BackendLogEntry :=
  { timestamp := 1722333600, message := "backend msg", request_id := none,
    log_group := "g", log_stream := "s" }

/-- C2 counterexample: the matcher returns zero matches for this error,
yet the builder emits a time_window row with backend fields filled, not a
no_correlation row, because of the unshifted fallback search. -/
theorem c2_counterexample :
    findCorrelatedBackends today0 c2err [c2log] 3 = [] ∧
    createDirectCorrelationMappings today0 [c2err] [c2log] 3 =
      [rowOfTimeWindow today0 c2err c2log] ∧
    (rowOfTimeWindow today0 c2err c2log).correlation_method = "time_window" ∧
    (rowOfTimeWindow today0 c2err c2log).backend_message = "backend msg" := by
  refine ⟨by decide, by decide, rfl, by decide⟩

/-- C2 as amended: when the matcher finds nothing and the time-window
fallback also finds nothing, the builder emits exactly one row for the
error, with every backend field empty and method no_correlation. -/
theorem c2_degraded_row (today : Today) (e : LogError)
    (pool : List BackendLogEntry) (maxC : Nat)
    (h1 : findCorrelatedBackends today e pool maxC = [])
    (h2 : findTimeBasedBackends today e pool = []) :
    createDirectCorrelationMappings today [e] pool maxC = [noCorrelationRow e] ∧
    (noCorrelationRow e).correlation_method = "no_correlation" ∧
    (noCorrelationRow e).backend_timestamp = "" ∧
    (noCorrelationRow e).backend_message = "" ∧
    (noCorrelationRow e).backend_log_group = "" ∧
    (noCorrelationRow e).backend_log_stream = "" ∧
    (noCorrelationRow e).backend_request_id = "" ∧
    (noCorrelationRow e).matched_request_id = "" ∧
    (noCorrelationRow e).time_diff_seconds = none := by
  refine ⟨?_, rfl, rfl, rfl, rfl, rfl, rfl, rfl, rfl⟩
  unfold createDirectCorrelationMappings rowsForError
  simp [h1, h2]

/-- Witness for C2 as amended, at an empty backend pool. -/
theorem c2_degraded_row_witness :
    createDirectCorrelationMappings today0 [c2err] [] 3 = [noCorrelationRow c2err] ∧
    (noCorrelationRow c2err).correlation_method = "no_correlation" ∧
    (noCorrelationRow c2err).backend_timestamp = "" ∧
    (noCorrelationRow c2err).backend_message = "" ∧
    (noCorrelationRow c2err).backend_log_group = "" ∧
    (noCorrelationRow c2err).backend_log_stream = "" ∧
    (noCorrelationRow c2err).backend_request_id = "" ∧
    (noCorrelationRow c2err).matched_request_id = "" ∧
    (noCorrelationRow c2err).time_diff_seconds = none :=
  c2_degraded_row today0 c2err [] 3 (by decide) (by decide)

/-- C3 fixture: an error with a parseable timestamp. -/
def c3err : LogError :=
  { timestamp := some "2024-07-30 10:00:00", request_id := none, request_ids := [],
    error_type := "LOG_LEVEL_ERROR", log_segment := "[E] kaput",
    context_before := [], context_after := [], line_number := 9 }

/-- C3 fixture: a backend entry at the unshifted frontend instant. -/
def c3log : BackendLogEntry :=
  { timestamp := 1722333600, message := "svc msg", request_id := none,
    log_group := "g", log_stream := "s" }

/-- C3 counterexample: the fallback search admits an entry whose
offset-corrected distance exceeds the window, and the reported time
difference is the unshifted one — so not every comparison path applies
the four-hour shift. -/
theorem c3_offset_counterexample :
    parseTimestamp today0 "2024-07-30 10:00:00" = some 1722333600 ∧
    findTimeBasedBackends today0 c3err [c3log] = [c3log] ∧
    ((c3log.timestamp - (1722333600 + 4 * 3600)).natAbs : Int) >
      Config.DEFAULT_TIME_WINDOW_MINUTES * 60 ∧
    calculateTimeDiff today0 c3err c3log = some 0 ∧
    c3log.timestamp - (1722333600 + 4 * 3600) ≠ 0 := by
  refine ⟨by decide, by decide, by decide, by decide, by decide⟩

/-- The time-based branch of the correlation check, as an equation: with
no identifier match and a parseable frontend timestamp, the check reduces
to the shifted window test. -/
theorem checkCorrelation_time_eq (today : Today) (e : LogError)
    (b : BackendLogEntry) (s : String) (t : Int)
    (hrid : ridMatchInfo e b = none) (hts : e.timestamp = some s) (hne : s ≠ "")
    (hp : parseTimestamp today s = some t) :
    checkCorrelation today e b =
      (if ((b.timestamp - (t + 4 * 3600)).natAbs : Int) ≤
          Config.DEFAULT_TIME_WINDOW_MINUTES * 60 then
        some ⟨.time_based, "medium", none, some ((b.timestamp - (t + 4 * 3600)).natAbs)⟩
      else none) := by
  simp [checkCorrelation, hrid, hts, hne, hp]

/-- C3 as amended: only the matcher applies the four-hour shift; the
fallback search and the reported difference use the unshifted parsed
frontend time. -/
theorem c3_offset_only_in_matcher (today : Today) (e : LogError)
    (b : BackendLogEntry) (s : String) (t : Int)
    (hts : e.timestamp = some s) (hne : s ≠ "")
    (hp : parseTimestamp today s = some t) :
    (ridMatchInfo e b = none →
      checkCorrelation today e b =
        (if ((b.timestamp - (t + 4 * 3600)).natAbs : Int) ≤
            Config.DEFAULT_TIME_WINDOW_MINUTES * 60 then
          some ⟨.time_based, "medium", none, some ((b.timestamp - (t + 4 * 3600)).natAbs)⟩
        else none)) ∧
    (∀ pool : List BackendLogEntry,
      findTimeBasedBackends today e pool =
        (sortAscBy (fun b2 => (b2.timestamp - t).natAbs)
          (pool.filter (fun b2 => ((b2.timestamp - t).natAbs : Int) ≤
            Config.DEFAULT_TIME_WINDOW_MINUTES * 60))).take 3) ∧
    calculateTimeDiff today e b = some (b.timestamp - t) := by
  refine ⟨?_, ?_, ?_⟩
  · intro hrid
    exact checkCorrelation_time_eq today e b s t hrid hts hne hp
  · intro pool
    simp [findTimeBasedBackends, hts, hne, hp]
  · simp [calculateTimeDiff, hts, hne, hp]

/-- Witness for C3 as amended at the concrete fixture. -/
theorem c3_offset_only_in_matcher_witness :
    calculateTimeDiff today0 c3err c3log = some (c3log.timestamp - 1722333600) :=
  (c3_offset_only_in_matcher today0 c3err c3log "2024-07-30 10:00:00" 1722333600
    rfl (by decide) (by decide)).2.2

/-- C4 fixture: a plain error record. -/
def c4err : LogError :=
  { timestamp := none, request_id := none, request_ids := [],
    error_type := "TIMEOUT", log_segment := "timeout while saving",
    context_before := [], context_after := [], line_number := 42 }

/-- C4. Completeness: the correlation table is at least as long as the
error list, and every error line number appears in some row. -/
theorem c4_completeness (today : Today) (errors : List LogError)
    (pool : List BackendLogEntry) (maxC : Nat) :
    errors.length ≤ (createDirectCorrelationMappings today errors pool maxC).length ∧
    ∀ e ∈ errors, ∃ row ∈ createDirectCorrelationMappings today errors pool maxC,
      row.frontend_line_number = e.line_number := by
  constructor
  · exact length_le_length_flatMap (fun e _ => rowsForError_ne_nil today pool maxC e)
  · intro e he
    obtain ⟨row, hrow⟩ : ∃ row, row ∈ rowsForError today pool maxC e := by
      cases hfr : rowsForError today pool maxC e with
      | nil => exact absurd hfr (rowsForError_ne_nil today pool maxC e)
      | cons r rs => exact ⟨r, List.mem_cons_self _ _⟩
    refine ⟨row, ?_, rowsForError_line_number today pool maxC e row hrow⟩
    unfold createDirectCorrelationMappings
    exact List.mem_flatMap.mpr ⟨e, he, hrow⟩

/-- Witness for C4 at a singleton error list and empty pool. -/
theorem c4_completeness_witness :
    (1 : Nat) ≤ (createDirectCorrelationMappings today0 [c4err] [] 3).length ∧
    ∃ row ∈ createDirectCorrelationMappings today0 [c4err] [] 3,
      row.frontend_line_number = c4err.line_number := by
  have h := c4_completeness today0 [c4err] [] 3
  exact ⟨h.1, h.2 c4err (List.mem_singleton.mpr rfl)⟩

/-- C5 fixture: an error with both an identifier and a timestamp. -/
def c5err : LogError :=
  { timestamp := some "2024-07-30 10:00:00", request_id := none,
    request_ids := ["abcdef123456"], error_type := "LOG_LEVEL_ERROR",
    log_segment := "[E] save failed", context_before := [], context_after := [],
    line_number := 3 }

/-- C5 fixture: an identifier-matching backend entry twenty-five hours
away. -/
def c5far : BackendLogEntry :=
  { timestamp := 1722333600 + 14400 + 90000, message := "id matched far away",
    request_id := some "abcdef123456", log_group := "g", log_stream := "s1" }

/-- C5 fixture: a time-only backend entry sixty seconds away from the
shifted frontend instant. -/
def c5near : BackendLogEntry :=
  { timestamp := 1722333600 + 14400 + 60, message := "close in time",
    request_id := none, log_group := "g", log_stream := "s2" }

/-- C5. Ranking and truncation: the matcher output is pairwise sorted by
the priority comparison (method score first, then ascending time
difference with a missing difference reading as minus infinity, then the
severity heuristic) and bounded by the requested maximum; in particular
an identifier match twenty-five hours away outranks a time-proximity
match sixty seconds away. -/
theorem c5_ranking_truncation :
    (∀ (today : Today) (e : LogError) (pool : List BackendLogEntry) (maxC : Nat),
      (findCorrelatedBackends today e pool maxC).Pairwise
          (fun a b => corrKeyGe a b = true) ∧
        (findCorrelatedBackends today e pool maxC).length ≤ maxC) ∧
    findCorrelatedBackends today0 c5err [c5near, c5far] 3 =
      [(c5far, ⟨.request_id_match, "high", some "abcdef123456", none⟩),
       (c5near, ⟨.time_based, "medium", none, some 60⟩)] := by
  exact ⟨fun today e pool maxC => findCorrelatedBackends_sorted_bounded today e pool maxC,
    by decide⟩

/-- C6 fixture: an error with a parseable timestamp and no identifiers. -/
def c6err : LogError :=
  { timestamp := some "2024-07-30 10:00:00", request_id := none, request_ids := [],
    error_type := "LOG_LEVEL_ERROR", log_segment := "[E] oom",
    context_before := [], context_after := [], line_number := 11 }

/-- C6 fixture: a backend entry one hour after the shifted frontend
instant. -/
def c6log : BackendLogEntry :=
  { timestamp := 1722333600 + 14400 + 3600, message := "later msg",
    request_id := none, log_group := "g", log_stream := "s" }

/-- C6 counterexample: a pair whose offset-corrected distance is 3600
seconds — far beyond the ten minutes the claim states — still produces a
TIME_PROXIMITY correlation, because the configured default window is 120
minutes. -/
theorem c6_window_counterexample :
    checkCorrelation today0 c6err c6log =
      some ⟨.time_based, "medium", none, some 3600⟩ ∧
    ¬((3600 : Int) ≤ 600) := by
  refine ⟨by decide, by decide⟩

/-- C6 as amended: with no identifier match and parseable timestamps, a
time correlation is produced exactly when the offset-corrected absolute
difference is within the default window, which is 7200 seconds (plus or
minus 120 minutes), symmetric. -/
theorem c6_time_window_default (today : Today) (e : LogError)
    (b : BackendLogEntry) (s : String) (t : Int)
    (hrid : ridMatchInfo e b = none) (hts : e.timestamp = some s) (hne : s ≠ "")
    (hp : parseTimestamp today s = some t) :
    Config.DEFAULT_TIME_WINDOW_MINUTES * 60 = 7200 ∧
    ((checkCorrelation today e b).isSome ↔
      ((b.timestamp - (t + 4 * 3600)).natAbs : Int) ≤ 7200) := by
  refine ⟨rfl, ?_⟩
  have hW : Config.DEFAULT_TIME_WINDOW_MINUTES * 60 = (7200 : Int) := by decide
  rw [checkCorrelation_time_eq today e b s t hrid hts hne hp, hW]
  by_cases h : ((b.timestamp - (t + 4 * 3600)).natAbs : Int) ≤ 7200
  · rw [if_pos h]
    simp only [Option.isSome_some, true_iff]
    omega
  · rw [if_neg h]
    simp only [Option.isSome_none, Bool.false_eq_true, false_iff, not_le]
    omega

/-- Witness for C6 as amended at the concrete fixture. -/
theorem c6_time_window_default_witness :
    (checkCorrelation today0 c6err c6log).isSome ↔
      ((c6log.timestamp - (1722333600 + 4 * 3600)).natAbs : Int) ≤ 7200 :=
  (c6_time_window_default today0 c6err c6log "2024-07-30 10:00:00" 1722333600
    (by decide) rfl (by decide) (by decide)).2

/-- C1 fixtures: two distinct errors sharing a request identifier. -/
def c1errA : LogError :=
  { timestamp := none, request_id := none, request_ids := ["abc123xyz"],
    error_type := "LOG_LEVEL_ERROR", log_segment := "seg one",
    context_before := [], context_after := [], line_number := 100 }

/-- Second C1 error, same identifier, different line. -/
def c1errB : LogError :=
  { timestamp := none, request_id := none, request_ids := ["abc123xyz"],
    error_type := "TIMEOUT", log_segment := "seg two",
    context_before := [], context_after := [], line_number := 200 }

/-- C1 fixture: one backend entry carrying the shared identifier. -/
def c1log : BackendLogEntry :=
  { timestamp := 1722333600, message := "Database connection pool exhausted",
    request_id := some "abc123xyz", log_group := "/aws/x", log_stream := "st" }

/-- C1. The global_deduplication parameter of the CSV export is never
read — the export is identical for both flag values — and a backend
entry matching two distinct errors appears in two rows of the table the
export writes, so the documented global deduplication does not happen. -/
theorem c1_global_dedup_ignored :
    (∀ (today : Today) (errs : List LogError) (pool : List BackendLogEntry)
      (g1 g2 : Bool),
      exportCorrelationsToCsv today errs pool g1 =
        exportCorrelationsToCsv today errs pool g2) ∧
    ((createDirectCorrelationMappings today0 [c1errA, c1errB] [c1log] 3).filter
      (fun r => r.backend_message = "Database connection pool exhausted")).length = 2 := by
  exact ⟨fun _ _ _ _ _ => rfl, by decide⟩

end BugAgent

namespace BugAgent

/-- C9 fixture: the record a zero request-id window produces on the
sample text (the error line itself still supplies the identifier). -/
def c9recordZeroWindow : LogError :=
  { timestamp := none, request_id := some "abc123xyz", request_ids := ["abc123xyz"],
    error_type := "LOG_LEVEL_ERROR",
    log_segment := "[ERROR] login failed request_id: abc123xyz",
    context_before := [], context_after := [], line_number := 1 }

/-- C9 fixture: the record a negative request-id window produces on the
sample text (the context slice is empty, so no identifiers at all). -/
def c9recordNegWindow : LogError :=
  { timestamp := none, request_id := none, request_ids := [],
    error_type := "LOG_LEVEL_ERROR",
    log_segment := "[ERROR] login failed request_id: abc123xyz",
    context_before := [], context_after := [], line_number := 1 }

/-- C9 counterexample: invoking the scanner with a zero or a negative
request-id window does not fail — the scan completes and returns a
normal record list, silently dropping the identifier context for the
negative window instead of raising a configuration error. -/
theorem c9_no_fail_fast_counterexample :
    scanForErrors c7sampleText 10 0 = [c9recordZeroWindow] ∧
    scanForErrors c7sampleText 10 (-1) = [c9recordNegWindow] ∧
    c9recordNegWindow.request_ids = [] := by
  refine ⟨by decide, by decide, rfl⟩

/-- C9 wrap-around fixture: a five-line log whose error sits on the
first line, with identifiers on lines two, three and five. -/
def c9wrapText : String :=
  "[ERROR] boom\nreq_id: aaabbb111xxx\nrequest_id: abcdef123456\nprocessing\nrequest_id: zzzyyy222333"

/-- C9 wrap-around fixture: the record a window of minus two produces on
that log — the slice bounds are two and minus one, which Python reads as
lines two and three, so the identifier of line three is extracted while
the adjacent line two and the last line are not scanned. -/
def c9wrapRecord : LogError :=
  { timestamp := none, request_id := some "abcdef123456",
    request_ids := ["abcdef123456"], error_type := "LOG_LEVEL_ERROR",
    log_segment := "[ERROR] boom",
    context_before := [], context_after := [], line_number := 1 }

/-- C9 as amended: no construction-time validation exists and the scan
proceeds with whatever slice the invalid window produces. With window
minus one the clamped context slice is always empty, so every record
carries no request identifiers; with window minus two or below the
negative stop wraps around, and the scan can silently extract
identifiers from an unrelated window of later lines, as the concrete
five-line log shows. -/
theorem c9_invalid_window_silent :
    (∀ (t : String) (c : Int) (e : LogError), e ∈ scanForErrors t c (-1) →
      e.request_ids = [] ∧ e.request_id = none) ∧
    (scanForErrors c9wrapText 10 (-2) = [c9wrapRecord] ∧
      c9wrapRecord.request_ids = ["abcdef123456"]) := by
  constructor
  · intro t c e he
    obtain ⟨i, line, et, _, _, _, hshape⟩ := mem_scan_shape he
    rw [hshape]
    exact extractErrorDetails_neg_one_window _ _ _ _
  · exact ⟨by decide, rfl⟩

/-- Witness for C9 as amended at the sample text and window minus one. -/
theorem c9_invalid_window_silent_witness :
    c9recordNegWindow.request_ids = [] ∧ c9recordNegWindow.request_id = none := by
  refine c9_invalid_window_silent.1 c7sampleText 10 c9recordNegWindow ?_
  rw [show scanForErrors c7sampleText 10 (-1) = [c9recordNegWindow] from by decide]
  exact List.mem_singleton.mpr rfl

end BugAgent
